import Mathlib

/-!
Shallow embedding of `src/actions/server.rs` from the ornithe-installer-rs
repository: the Maven artifact path resolver, the library download join loop,
the launch jar synthesis and the install orchestration, modelled as pure
functions over an explicit environment of external effects (filesystem,
network, archive reading, process spawning).
-/

namespace Ornithe

set_option maxRecDepth 16384

/-- Flat, message-carrying error type, mirroring `InstallerError(String)`. -/
structure InstallerError where
  msg : String
deriving DecidableEq, Repr

instance {ε α : Type} [DecidableEq ε] [DecidableEq α] : DecidableEq (Except ε α)
  | .ok a, .ok b =>
    if h : a = b then isTrue (by rw [h])
    else isFalse (by intro hh; cases hh; exact h rfl)
  | .ok _, .error _ => isFalse (by intro h; cases h)
  | .error _, .ok _ => isFalse (by intro h; cases h)
  | .error a, .error b =>
    if h : a = b then isTrue (by rw [h])
    else isFalse (by intro hh; cases hh; exact h rfl)

/-- JSON values: the fragment of `serde_json::Value` the installer consumes. -/
inductive Json where
  | null
  | bool (b : Bool)
  | num (n : Int)
  | str (s : String)
  | arr (xs : List Json)
  | obj (fields : List (String × Json))

/-- `serde_json::Value` string indexing (`value["key"]`): yields `Null` for a
missing key and for any non-object value. -/
def Json.idx : Json → String → Json
  | .obj fields, k =>
    match fields.find? (fun p => p.1 == k) with
    | some p => p.2
    | none => .null
  | _, _ => .null

/-- `Value::as_str`. -/
def Json.asStr : Json → Option String
  | .str s => some s
  | _ => none

/-- `Value::as_array`. -/
def Json.asArr : Json → Option (List Json)
  | .arr xs => some xs
  | _ => none

/-- `Value::is_object`. -/
def Json.isObject : Json → Bool
  | .obj _ => true
  | _ => false

/-- The two loader variants of `LoaderType` consumed by the server installer. -/
inductive LoaderType where
  | Fabric
  | Quilt
deriving DecidableEq, Repr

/-- Modelled from the spec: `LoaderType::get_name` lives in `src/net/meta.rs`,
which is not among the sources; the spec fixes the short names used in output
filenames to `fabric` and `quilt` (`<fabric|quilt>-server-launch.jar`). -/
def LoaderType.get_name : LoaderType → String
  | .Fabric => "fabric"
  | .Quilt => "quilt"

/-- `PathBuf::join`, modelled over strings with an explicit platform
separator `sep` (`/` on Unix, `\` on Windows). -/
def pjoin (sep p q : String) : String :=
  p ++ sep ++ q

/-- Split a character list at every occurrence of the delimiter, keeping
empty pieces, mirroring Rust `str::split` with a one-character pattern
(always at least one piece). -/
def splitChars (d : Char) : List Char → List (List Char)
  | [] => [[]]
  | c :: rest =>
    if c = d then [] :: splitChars d rest
    else
      match splitChars d rest with
      | [] => [[c]]
      | h :: t => (c :: h) :: t

/-- Rust `str::split(':')` over strings. -/
def splitOnColon (s : String) : List String :=
  (splitChars ':' s.data).map (fun l => String.mk l)

/-- Join pieces back with a colon (used to express what `splitn` leaves in
its final piece). -/
def joinColon : List String → String
  | [] => ""
  | [x] => x
  | x :: rest => x ++ ":" ++ joinColon rest

/-- Rust `str::splitn(3, ":")`: split on at most the first two colons, the
third piece keeping any further colons. -/
def splitn3Colon (s : String) : List String :=
  match splitOnColon s with
  | a :: b :: c :: rest => [a, b, joinColon (c :: rest)]
  | parts => parts

/-- Rust `str::replace` with a single-character pattern and a
single-character replacement is a character-wise map. -/
def replaceChar (a b : Char) (s : String) : String :=
  String.mk (s.data.map (fun c => if c = a then b else c))

/-- `split_artifact`: resolve a Maven coordinate to its repository-relative
jar path. The source calls `.unwrap()` on the missing pieces, i.e. it panics
when fewer than three colon-delimited segments exist; the panic is modelled
as `none`. -/
def split_artifact (artifact : String) : Option String :=
  let parts := splitn3Colon artifact
  match parts[0]?, parts[1]?, parts[2]? with
  | some group, some nm, some ver =>
    some (replaceChar '.' '/' group ++ "/" ++ nm ++ "/" ++ ver ++ "/" ++
      nm ++ "-" ++ ver ++ ".jar")
  | _, _, _ => none

example : split_artifact "net.fabricmc:fabric-loader:0.14.0" =
    some "net/fabricmc/fabric-loader/0.14.0/fabric-loader-0.14.0.jar" := by
  decide

example : split_artifact "a:b" = none := by decide

example : split_artifact ":::" = some "//:/-:.jar" := by decide

/-- Entries of the synthesized launch archive. -/
inductive ArchiveEntry where
  | directory (nm : String)
  | file (nm : String) (content : String)
deriving DecidableEq, Repr

/-- Observable external actions of an install, in program order. Archive
construction is modelled as one `writeArchive` action carrying the final
entry list (the source streams the same entries into a `ZipWriter`). -/
inductive Effect where
  | removeDir (p : String)
  | fetchLaunchJson
  | download (url : String) (dest : String)
  | createDirAll (p : String)
  | removeFile (p : String)
  | writeArchive (p : String) (entries : List ArchiveEntry)
  | spawnProcess (cmd : String) (args : List String)
deriving DecidableEq, Repr

/-- Environment of external collaborators: filesystem predicates, the
metadata service (already combined with JSON parsing), the downloader, the
zip reader for downloaded jars, and the completion order `JoinSet` yields.
`downloadResult dest = none` means the download to `dest` succeeds;
`jarManifest p` is the text of `META-INF/MANIFEST.MF` inside the archive at
`p` (with `none` covering both open and missing-entry failures). -/
structure Env where
  pathExists : String → Bool
  removeDirOk : String → Bool
  removeFileOk : String → Bool
  createDirOk : Bool
  launchJson : Except InstallerError Json
  downloadResult : String → Option InstallerError
  joinOrder : Nat → List Nat
  jarManifest : String → Option String
  serverJarUrl : Except InstallerError String
  canonical : String → Option String

/-- The `clear_paths` loop: best-effort existence check, then
`remove_dir_all` whose failure aborts via `?`. -/
def removeIfExists (env : Env) (p : String) :
    List Effect × Except InstallerError Unit :=
  if env.pathExists p then
    ([Effect.removeDir p],
      if env.removeDirOk p then .ok () else .error ⟨"io error: remove_dir_all"⟩)
  else ([], .ok ())

/-- Stale-directory cleanup over `[location/.fabric, location/.quilt]`. -/
def cleanStale (env : Env) (sep location : String) :
    List Effect × Except InstallerError Unit :=
  let r1 := removeIfExists env (pjoin sep location ".fabric")
  match r1.2 with
  | .error e => (r1.1, .error e)
  | .ok _ =>
    let r2 := removeIfExists env (pjoin sep location ".quilt")
    (r1.1 ++ r2.1, r2.2)

/-- The `match loader_type` block resolving `main_class` (kept at its `""`
initial value for Quilt) and the initial `launch_main_class`. -/
def resolveMainClasses (loader_type : LoaderType) (launch_json : Json) :
    Except InstallerError (String × String) :=
  match loader_type with
  | .Fabric =>
    match (launch_json.idx "mainClass").asStr with
    | none => .error ⟨"Could not find main class entry"⟩
    | some mc =>
      .ok (mc, "net.fabricmc.loader.launch.server.FabricServerLauncher")
  | .Quilt =>
    match (launch_json.idx "launcherMainClass").asStr with
    | none => .error ⟨"Could not find main class entry"⟩
    | some lmc => .ok ("", lmc)

/-- Per-library extraction of the `name`/`url` fields inside the spawn
loop; a missing field aborts the loop. -/
def extractLibraries : List Json → Except InstallerError (List (String × String))
  | [] => .ok []
  | lib :: rest =>
    match (lib.idx "name").asStr with
    | none => .error ⟨"Library had no name!"⟩
    | some nm =>
      match (lib.idx "url").asStr with
      | none => .error ⟨"Library had no url!"⟩
      | some url =>
        match extractLibraries rest with
        | .error e => .error e
        | .ok tail => .ok ((nm, url) :: tail)

/-- The text the source passes to `str::matches`. Rust `str::matches` with a
`&str` pattern counts occurrences of the pattern as a LITERAL substring; the
regex-looking text is never interpreted as a regex. -/
def fabricLoaderPattern : String := "net\\.fabricmc:fabric-loader:.*"

/-- Literal substring containment, the semantics of
`name.matches(pat).count() > 0`. -/
def containsSub (s pat : String) : Bool :=
  (List.range (s.data.length + 1)).any
    (fun i => pat.data.isPrefixOf (s.data.drop i))

/-- The running `fabric_loader_artifact` assignment inside the spawn loop
(last matching library name wins). -/
def detectFabricLoader (tasks : List (String × String)) : Option String :=
  tasks.foldl
    (fun acc t => if containsSub t.1 fabricLoaderPattern then some t.1 else acc)
    none

/-- `download_library`: resolve the coordinate, download
`url ++ path` to `libraries_dir/path`. The `split_artifact` panic inside the
spawned task (surfaced by `JoinSet` as a join error) is modelled as an
error result before any download effect. -/
def download_library (env : Env) (sep libraries_dir nm url : String) :
    List Effect × Except InstallerError String :=
  match split_artifact nm with
  | none => ([], .error ⟨"task panicked: Option::unwrap on None"⟩)
  | some ap =>
    let file := pjoin sep libraries_dir ap
    match env.downloadResult file with
    | some e => ([Effect.download (url ++ ap) file], .error e)
    | none => ([Effect.download (url ++ ap) file], .ok file)

/-- The `join_next` loop: tasks complete in the order `env.joinOrder` gives;
the first failed task aborts with the aggregated
`Failed to download libraries: ` error. -/
def joinDownloads (env : Env) (sep location : String)
    (tasks : List (String × String)) :
    List Nat → List Effect × Except InstallerError (List String)
  | [] => ([], .ok [])
  | i :: rest =>
    match tasks[i]? with
    | none => joinDownloads env sep location tasks rest
    | some t =>
      let d := download_library env sep (pjoin sep location "libraries") t.1 t.2
      match d.2 with
      | .error e =>
        (d.1, .error ⟨"Failed to download libraries: " ++ e.msg⟩)
      | .ok file =>
        let r := joinDownloads env sep location tasks rest
        (d.1 ++ r.1,
          match r.2 with
          | .error e => .error e
          | .ok files => .ok (file :: files))

/-- `read_jar_main_class`, split into the pure manifest-text scan: split the
manifest at newlines, find the first line starting with the literal
`Main-Class: `, and return the rest of that line... -/
def mainClassOfManifest (mf : String) : Except InstallerError String :=
  let marker : List Char := "Main-Class: ".data
  match (splitChars '\n' mf.data).find? (fun line => marker.isPrefixOf line) with
  | some line => .ok (String.mk (line.drop marker.length))
  | none =>
    .error ⟨"Could not find Main-Class attribute in fabric loader jar manifest!"⟩

/-- ...and the archive-opening part, which consults the environment. -/
def read_jar_main_class (env : Env) (jar_file : String) :
    Except InstallerError String :=
  match env.jarManifest jar_file with
  | none => .error ⟨"zip error: could not read META-INF/MANIFEST.MF"⟩
  | some mf => mainClassOfManifest mf

/-- The `if let Some(loader) = fabric_loader_artifact` override. Note the
source has no loader-type guard here: it runs for Quilt installs too. -/
def readLoaderMainClass (env : Env) (sep location : String) :
    Option String → String → Except InstallerError String
  | none, launch_main_class => .ok launch_main_class
  | some loader, _ =>
    match split_artifact loader with
    | none => .error ⟨"task panicked: Option::unwrap on None"⟩
    | some ap =>
      read_jar_main_class env (pjoin sep (pjoin sep location "libraries") ap)

/-- `create_dir_all` guarded by the best-effort existence check. -/
def ensureTargetDir (env : Env) (location : String) :
    List Effect × Except InstallerError Unit :=
  if env.pathExists location then ([], .ok ())
  else
    ([Effect.createDirAll location],
      if env.createDirOk then .ok () else .error ⟨"io error: create_dir_all"⟩)

/-- `Path::strip_prefix`, modelled string-wise with the separator folded into
the prefix (every path handed to it is built by `pjoin` from the install
location, so the component-wise and string-wise readings agree). -/
def stripPathPrefix (pre s : String) : Option String :=
  if pre.data.isPrefixOf s.data then some (String.mk (s.data.drop pre.data.length))
  else none

/-- Rust `char::is_whitespace` restricted to the ASCII whitespace the
installer can produce. -/
def isRustWhitespace (c : Char) : Bool :=
  c = ' ' || c = '\t' || c = '\n' || c = '\r'

/-- Rust `str::trim_end`. -/
def trimEndWs (s : String) : String :=
  String.mk ((s.data.reverse.dropWhile isRustWhitespace).reverse)

/-- The `class_path` accumulation loop of `create_launch_jar`: for each
library, strip the install location (aborting via `?` on failure), normalize
backslashes to forward slashes and append a trailing space. (`to_str`
returning `None` for non-UTF-8 paths is not representable here: every
modelled path is valid text.) -/
def buildClassPath (sep install_location : String) :
    List String → String → Except InstallerError String
  | [], acc => .ok acc
  | lib :: rest, acc =>
    match stripPathPrefix (install_location ++ sep) lib with
    | none => .error ⟨"StripPrefixError: prefix not found"⟩
    | some rel =>
      buildClassPath sep install_location rest
        (acc ++ replaceChar '\\' '/' rel ++ " ")

/-- The entry list streamed into the `ZipWriter`: the `META-INF` directory
entry, the manifest (version line, main class line, class path line, each
ended by `writeln!` with a newline) and, for Fabric only, the
`fabric-server-launch.properties` entry whose bytes are
`launch.mainClass=` ++ main class ++ `\n`. -/
def launchJarEntries (loader_type : LoaderType)
    (main_class launch_main_class class_path : String) : List ArchiveEntry :=
  [ArchiveEntry.directory "META-INF",
   ArchiveEntry.file "META-INF/MANIFEST.MF"
     ("Manifest-Version: 1.0\n" ++
      "Main-Class: " ++ launch_main_class ++ "\n" ++
      "Class-Path: " ++ class_path ++ "\n")] ++
  (if loader_type = LoaderType.Fabric then
    [ArchiveEntry.file "fabric-server-launch.properties"
      ("launch.mainClass=" ++ main_class ++ "\n")]
  else [])

/-- `create_launch_jar`: delete a pre-existing archive, then write the
launcher archive. -/
def create_launch_jar (env : Env) (sep install_location : String)
    (loader_type : LoaderType) (main_class launch_main_class : String)
    (library_files : List String) :
    List Effect × Except InstallerError Unit :=
  let jar_out :=
    pjoin sep install_location (loader_type.get_name ++ "-server-launch.jar")
  let pre : List Effect :=
    if env.pathExists jar_out then [Effect.removeFile jar_out] else []
  if env.pathExists jar_out && !env.removeFileOk jar_out then
    (pre, .error ⟨"io error: remove_file"⟩)
  else
    match buildClassPath sep install_location library_files "" with
    | .error e => (pre, .error e)
    | .ok class_path =>
      (pre ++ [Effect.writeArchive jar_out
        (launchJarEntries loader_type main_class launch_main_class
          (trimEndWs class_path))], .ok ())

/-- `install_path`: the full orchestration, yielding the effect trace in
program order together with the result. Version and loader-version only
parametrize the external fetches and are folded into the environment. -/
def install_path (env : Env) (sep : String) (loader_type : LoaderType)
    (location : String) (install_server : Bool) :
    List Effect × Except InstallerError Unit :=
  let clean := cleanStale env sep location
  match clean.2 with
  | .error e => (clean.1, .error e)
  | .ok _ =>
    let effs0 := clean.1 ++ [Effect.fetchLaunchJson]
    match env.launchJson with
    | .error e => (effs0, .error e)
    | .ok launch_json =>
      if !launch_json.isObject then
        (effs0, .error
          ⟨"Cannot create server installation due to server endpoint returning wrong type."⟩)
      else
        match resolveMainClasses loader_type launch_json with
        | .error e => (effs0, .error e)
        | .ok mcs =>
          match (launch_json.idx "libraries").asArr with
          | none => (effs0, .error ⟨"No libraries were specified"⟩)
          | some libraries =>
            match extractLibraries libraries with
            | .error e => (effs0, .error e)
            | .ok tasks =>
              let fabric_loader_artifact := detectFabricLoader tasks
              let joined :=
                joinDownloads env sep location tasks (env.joinOrder tasks.length)
              let effs1 := effs0 ++ joined.1
              match joined.2 with
              | .error e => (effs1, .error e)
              | .ok downloaded_library_files =>
                match readLoaderMainClass env sep location
                    fabric_loader_artifact mcs.2 with
                | .error e => (effs1, .error e)
                | .ok launch_main_class =>
                  let dir := ensureTargetDir env location
                  let effs2 := effs1 ++ dir.1
                  match dir.2 with
                  | .error e => (effs2, .error e)
                  | .ok _ =>
                    let jar := create_launch_jar env sep location loader_type
                      mcs.1 launch_main_class downloaded_library_files
                    let effs3 := effs2 ++ jar.1
                    match jar.2 with
                    | .error e => (effs3, .error e)
                    | .ok _ =>
                      if install_server then
                        match env.serverJarUrl with
                        | .error e => (effs3, .error e)
                        | .ok url =>
                          let dest := pjoin sep location "server.jar"
                          match env.downloadResult dest with
                          | some e =>
                            (effs3 ++ [Effect.download url dest], .error e)
                          | none =>
                            (effs3 ++ [Effect.download url dest], .ok ())
                      else (effs3, .ok ())

/-- The public `install` entry point (logging aside, it just delegates). -/
def install (env : Env) (sep : String) (loader_type : LoaderType)
    (location : String) (install_server : Bool) :
    List Effect × Except InstallerError Unit :=
  install_path env sep loader_type location install_server

/-- `install_and_run`: install first unless the launch archive already
exists, then spawn `<java> <args...> -jar <canonicalized archive> nogui`
without waiting. A `java` override whose path is not valid text falls back
to `"java"` in the source; that case is not representable here. -/
def install_and_run (env : Env) (sep : String) (loader_type : LoaderType)
    (location : String) (java : Option String) (args : List String) :
    List Effect × Except InstallerError Unit :=
  let launch_jar :=
    pjoin sep location (loader_type.get_name ++ "-server-launch.jar")
  let inst :=
    if !env.pathExists launch_jar then
      install_path env sep loader_type location true
    else ([], .ok ())
  match inst.2 with
  | .error e => (inst.1, .error e)
  | .ok _ =>
    let java_binary := match java with | some p => p | none => "java"
    match env.canonical launch_jar with
    | none => (inst.1, .error ⟨"io error: canonicalize"⟩)
    | some abs =>
      (inst.1 ++ [Effect.spawnProcess java_binary (args ++ ["-jar", abs, "nogui"])],
        .ok ())

/-- Whether the download task for library `t` fails when joined: either the
coordinate panic inside the task or a failed download. -/
def taskFails (env : Env) (sep location : String) (t : String × String) : Bool :=
  match split_artifact t.1 with
  | none => true
  | some ap =>
    (env.downloadResult (pjoin sep (pjoin sep location "libraries") ap)).isSome

/-- `taskFails` looked up by spawn index. -/
def taskFailsAt (env : Env) (sep location : String)
    (tasks : List (String × String)) (i : Nat) : Bool :=
  match tasks[i]? with
  | none => false
  | some t => taskFails env sep location t

/-- The files the join loop collects when every joined task succeeds, in
completion order. -/
def joinFiles (sep location : String) (tasks : List (String × String))
    (order : List Nat) : List String :=
  order.filterMap (fun i =>
    tasks[i]?.bind (fun t =>
      (split_artifact t.1).map (fun ap =>
        pjoin sep (pjoin sep location "libraries") ap)))

/-- The same files as paths relative to the install location. -/
def joinRels (sep : String) (tasks : List (String × String))
    (order : List Nat) : List String :=
  order.filterMap (fun i =>
    tasks[i]?.bind (fun t =>
      (split_artifact t.1).map (fun ap => pjoin sep "libraries" ap)))

/-- Claim-side rendering of one class path entry: the file path relative to
the install location, backslashes replaced by forward slashes. -/
def classPathEntry (sep install_location f : String) : String :=
  replaceChar '\\' '/' ((stripPathPrefix (install_location ++ sep) f).getD f)

/-- Joining with single spaces (the claim-side reading of the line). -/
def joinSpace : List String → String
  | [] => ""
  | [x] => x
  | x :: rest => x ++ " " ++ joinSpace rest

/-- The raw accumulation shape of the class path loop: every entry followed
by one space. -/
def concatSp : List String → String
  | [] => ""
  | x :: rest => x ++ " " ++ concatSp rest

/-- A well-formed launch manifest document used for concrete runs: one
ordinary library, both main-class fields present. -/
def demoJson : Json :=
  Json.obj
    [("mainClass", Json.str "the.Game"),
     ("launcherMainClass", Json.str "q.Main"),
     ("libraries", Json.arr
       [Json.obj [("name", Json.str "a.b:c:1"), ("url", Json.str "u/")]])]

/-- An environment where every external operation succeeds and nothing
exists on disk yet. -/
def demoEnv : Env where
  pathExists := fun _ => false
  removeDirOk := fun _ => true
  removeFileOk := fun _ => true
  createDirOk := true
  launchJson := .ok demoJson
  downloadResult := fun _ => none
  joinOrder := fun n => List.range n
  jarManifest := fun _ => some "Main-Class: jar.Main\nX: y\n"
  serverJarUrl := .ok "surl"
  canonical := fun p => some ("/abs/" ++ p)

/-- A Fabric launch manifest document whose single library is the Fabric
loader, by its real coordinate. -/
def fabricLoaderJson : Json :=
  Json.obj
    [("mainClass", Json.str "the.Game"),
     ("libraries", Json.arr
       [Json.obj [("name", Json.str "net.fabricmc:fabric-loader:0.14.0"),
         ("url", Json.str "u/")]])]

/-- Environment for the Fabric-loader run: the downloaded loader jar has a
manifest naming a main class different from the hardcoded fallback. -/
def fabricLoaderEnv : Env :=
  { demoEnv with
    launchJson := .ok fabricLoaderJson,
    jarManifest := fun _ => some "Main-Class: real.loader.Main\n" }

/-- A Quilt launch manifest document whose single library name contains the
loader-detection text literally. -/
def quiltAdversarialJson : Json :=
  Json.obj
    [("launcherMainClass", Json.str "q.Main"),
     ("libraries", Json.arr
       [Json.obj [("name", Json.str fabricLoaderPattern),
         ("url", Json.str "u/")]])]

/-- Environment for the adversarial Quilt run: the matching jar carries an
overriding main class. -/
def quiltAdversarialEnv : Env :=
  { demoEnv with
    launchJson := .ok quiltAdversarialJson,
    jarManifest := fun _ => some "Main-Class: o.Override\n" }

/-- Environment in which the library download fails. -/
def downloadFailEnv : Env :=
  { demoEnv with downloadResult := fun _ => some ⟨"boom"⟩ }

/-- Environment whose launch manifest document is a JSON array. -/
def arrayJsonEnv : Env :=
  { demoEnv with launchJson := .ok (Json.arr [Json.str "x"]) }

/-- Environment whose launch manifest document lacks `launcherMainClass`. -/
def noQuiltMainEnv : Env :=
  { demoEnv with
    launchJson := .ok (Json.obj
      [("mainClass", Json.str "the.Game"),
       ("libraries", Json.arr
         [Json.obj [("name", Json.str "a.b:c:1"), ("url", Json.str "u/")]])]) }

/-- Environment where the launch archive already exists at the target. -/
def archiveExistsEnv : Env :=
  { demoEnv with pathExists := fun _ => true }

/-- C2: for every coordinate string with exactly three colon-delimited
segments `g : a : v`, the resolver returns `g`-with-dots-as-slashes
`/a/v/a-v.jar`; for every input with fewer than three colon-delimited
segments it fails (the source panics on `unwrap`) rather than returning a
path. -/
theorem C2_split_artifact_resolution (s g a v : String)
    (h3 : splitOnColon s = [g, a, v]) :
    split_artifact s =
      some (replaceChar '.' '/' g ++ "/" ++ a ++ "/" ++ v ++ "/" ++
        a ++ "-" ++ v ++ ".jar")
    ∧ ∀ t : String, (splitOnColon t).length < 3 → split_artifact t = none := by
  constructor
  · simp [split_artifact, splitn3Colon, h3, joinColon]
  · intro t ht
    rcases hsplit : splitOnColon t with _ | ⟨x, _ | ⟨y, _ | ⟨z, rest⟩⟩⟩ <;>
      simp [hsplit, split_artifact, splitn3Colon] at ht ⊢
    omega

theorem C2_split_artifact_resolution_witness :
    split_artifact "net.fabricmc:fabric-loader:0.14.0" =
      some (replaceChar '.' '/' "net.fabricmc" ++ "/" ++ "fabric-loader" ++ "/" ++
        "0.14.0" ++ "/" ++ "fabric-loader" ++ "-" ++ "0.14.0" ++ ".jar")
    ∧ ∀ t : String, (splitOnColon t).length < 3 → split_artifact t = none :=
  C2_split_artifact_resolution "net.fabricmc:fabric-loader:0.14.0"
    "net.fabricmc" "fabric-loader" "0.14.0" (by decide)

/-- C9: a coordinate with three or more colons does not make the resolver
error: `splitn(3, ":")` splits on at most the first two colons, everything
after the second colon (colons included) becoming the version segment, and
empty segments are accepted without error. -/
theorem C9_splitn_tolerance (s g a c : String) (rest : List String)
    (h : splitOnColon s = g :: a :: c :: rest) :
    split_artifact s =
      some (replaceChar '.' '/' g ++ "/" ++ a ++ "/" ++ joinColon (c :: rest) ++
        "/" ++ a ++ "-" ++ joinColon (c :: rest) ++ ".jar")
    ∧ split_artifact "::" = some "///-.jar"
    ∧ split_artifact ":::" = some "//:/-:.jar" := by
  refine ⟨?_, by decide, by decide⟩
  simp [split_artifact, splitn3Colon, h]

theorem C9_splitn_tolerance_witness :
    split_artifact "a:b:c:d" =
      some (replaceChar '.' '/' "a" ++ "/" ++ "b" ++ "/" ++ joinColon ["c", "d"] ++
        "/" ++ "b" ++ "-" ++ joinColon ["c", "d"] ++ ".jar")
    ∧ split_artifact "::" = some "///-.jar"
    ∧ split_artifact ":::" = some "//:/-:.jar" :=
  C9_splitn_tolerance "a:b:c:d" "a" "b" "c" ["d"] (by decide)

theorem listIsPrefixOf_append (l t : List Char) : l.isPrefixOf (l ++ t) = true := by
  induction l with
  | nil => simp [List.isPrefixOf]
  | cons c rest ih => simp [List.isPrefixOf, ih]

theorem stripPathPrefix_pjoin (sep loc r : String) :
    stripPathPrefix (loc ++ sep) (pjoin sep loc r) = some r := by
  have hdata : (pjoin sep loc r).data = (loc ++ sep).data ++ r.data := by
    simp [pjoin, String.data_append]
  unfold stripPathPrefix
  rw [hdata, listIsPrefixOf_append]
  simp only [if_pos rfl]
  rw [List.drop_left]
  exact congrArg some (String.ext rfl)

theorem pjoin_assoc (sep p q r : String) :
    pjoin sep (pjoin sep p q) r = pjoin sep p (pjoin sep q r) := by
  simp [pjoin, String.append_assoc]

theorem trimEndWs_append_space (s : String) :
    trimEndWs (s ++ " ") = trimEndWs s := by
  apply String.ext
  simp [trimEndWs, String.data_append, isRustWhitespace]

theorem trimEndWs_congr_append (p A B : String)
    (h : trimEndWs A = trimEndWs B) :
    trimEndWs (p ++ A) = trimEndWs (p ++ B) := by
  have h2 : A.data.reverse.dropWhile isRustWhitespace
      = B.data.reverse.dropWhile isRustWhitespace := by
    have := congrArg String.data h
    simpa [trimEndWs] using this
  apply String.ext
  simp [trimEndWs, String.data_append, List.dropWhile_append, h2]

theorem trimEnd_concatSp_eq_joinSpace (xs : List String) :
    trimEndWs (concatSp xs) = trimEndWs (joinSpace xs) := by
  induction xs with
  | nil => rfl
  | cons x rest ih =>
    cases rest with
    | nil =>
      show trimEndWs (x ++ " " ++ "") = trimEndWs x
      rw [String.append_empty, trimEndWs_append_space]
    | cons y t =>
      show trimEndWs (x ++ " " ++ concatSp (y :: t))
        = trimEndWs (x ++ " " ++ joinSpace (y :: t))
      rw [String.append_assoc, String.append_assoc]
      exact trimEndWs_congr_append x _ _
        (trimEndWs_congr_append " " _ _ ih)

theorem buildClassPath_map_pjoin (sep loc : String) (rels : List String)
    (acc : String) :
    buildClassPath sep loc (rels.map (fun r => pjoin sep loc r)) acc
      = .ok (acc ++ concatSp (rels.map (fun r => replaceChar '\\' '/' r))) := by
  induction rels generalizing acc with
  | nil => simp [buildClassPath, concatSp, String.append_empty]
  | cons r rest ih =>
    simp only [List.map_cons, buildClassPath, stripPathPrefix_pjoin]
    rw [ih]
    simp [concatSp, String.append_assoc]

theorem create_launch_jar_ok (env : Env) (sep loc : String) (lt : LoaderType)
    (mc lmc : String) (rels : List String)
    (hpre : (env.pathExists (pjoin sep loc (lt.get_name ++ "-server-launch.jar"))
      && !env.removeFileOk (pjoin sep loc (lt.get_name ++ "-server-launch.jar")))
      = false) :
    create_launch_jar env sep loc lt mc lmc (rels.map (fun r => pjoin sep loc r))
      = ((if env.pathExists (pjoin sep loc (lt.get_name ++ "-server-launch.jar"))
          then [Effect.removeFile (pjoin sep loc (lt.get_name ++ "-server-launch.jar"))]
          else [])
        ++ [Effect.writeArchive (pjoin sep loc (lt.get_name ++ "-server-launch.jar"))
            (launchJarEntries lt mc lmc
              (trimEndWs (joinSpace (rels.map (fun r => replaceChar '\\' '/' r)))))],
        .ok ()) := by
  unfold create_launch_jar
  rw [buildClassPath_map_pjoin]
  simp only [hpre, Bool.false_eq_true, if_false, String.empty_append,
    trimEnd_concatSp_eq_joinSpace]

theorem download_library_effects (env : Env) (sep dir nm url : String) :
    ∀ e ∈ (download_library env sep dir nm url).1, ∃ u d, e = Effect.download u d := by
  intro e he
  unfold download_library at he
  cases hs : split_artifact nm with
  | none => simp [hs] at he
  | some ap =>
    simp only [hs] at he
    cases hd : env.downloadResult (pjoin sep dir ap) <;>
      simp only [hd] at he <;> simp at he <;> exact ⟨_, _, he⟩

theorem joinDownloads_effects (env : Env) (sep loc : String)
    (tasks : List (String × String)) (order : List Nat) :
    ∀ e ∈ (joinDownloads env sep loc tasks order).1,
      ∃ u d, e = Effect.download u d := by
  induction order with
  | nil => intro e he; simp [joinDownloads] at he
  | cons i rest ih =>
    intro e he
    unfold joinDownloads at he
    cases ht : tasks[i]? with
    | none => rw [ht] at he; exact ih e he
    | some t =>
      rw [ht] at he
      simp only at he
      cases hd : (download_library env sep (pjoin sep loc "libraries") t.1 t.2).2 with
      | error err =>
        rw [hd] at he
        exact download_library_effects env sep _ t.1 t.2 e he
      | ok file =>
        rw [hd] at he
        simp only [List.mem_append] at he
        rcases he with he | he
        · exact download_library_effects env sep _ t.1 t.2 e he
        · exact ih e he

theorem joinDownloads_ok (env : Env) (sep loc : String)
    (tasks : List (String × String)) (order : List Nat)
    (hall : ∀ i ∈ order, taskFailsAt env sep loc tasks i = false) :
    (joinDownloads env sep loc tasks order).2
      = .ok (joinFiles sep loc tasks order) := by
  induction order with
  | nil => rfl
  | cons i rest ih =>
    have hi := hall i (by simp)
    have hrest : ∀ j ∈ rest, taskFailsAt env sep loc tasks j = false :=
      fun j hj => hall j (by simp [hj])
    cases ht : tasks[i]? with
    | none =>
      show (joinDownloads env sep loc tasks (i :: rest)).2 = _
      unfold joinDownloads joinFiles
      rw [ht]
      simp only [List.filterMap_cons, ht, Option.none_bind]
      exact ih hrest
    | some t =>
      have hfails : taskFails env sep loc t = false := by
        simpa [taskFailsAt, ht] using hi
      cases hs : split_artifact t.1 with
      | none => exact absurd hfails (by simp [taskFails, hs])
      | some ap =>
        have hd : env.downloadResult (pjoin sep (pjoin sep loc "libraries") ap)
            = none := by
          have := hfails
          unfold taskFails at this
          rw [hs] at this
          simpa using this
        unfold joinDownloads joinFiles
        rw [ht]
        simp only [download_library, hs, hd, List.filterMap_cons, ht,
          Option.some_bind, Option.map_some]
        rw [ih hrest]
        rfl

theorem joinDownloads_err (env : Env) (sep loc : String)
    (tasks : List (String × String)) (order : List Nat)
    (hfail : ∃ i ∈ order, taskFailsAt env sep loc tasks i = true) :
    ∃ m, (joinDownloads env sep loc tasks order).2
      = .error ⟨"Failed to download libraries: " ++ m⟩ := by
  induction order with
  | nil => simp at hfail
  | cons j rest ih =>
    cases ht : tasks[j]? with
    | none =>
      have hrest : ∃ i ∈ rest, taskFailsAt env sep loc tasks i = true := by
        rcases hfail with ⟨i, hi, hf⟩
        rcases List.mem_cons.mp hi with rfl | hmem
        · simp [taskFailsAt, ht] at hf
        · exact ⟨i, hmem, hf⟩
      rcases ih hrest with ⟨m, hm⟩
      refine ⟨m, ?_⟩
      unfold joinDownloads
      rw [ht]
      exact hm
    | some t =>
      cases hfails : taskFails env sep loc t with
      | true =>
        cases hs : split_artifact t.1 with
        | none =>
          refine ⟨"task panicked: Option::unwrap on None", ?_⟩
          unfold joinDownloads
          rw [ht]
          simp [download_library, hs]
        | some ap =>
          have : (env.downloadResult (pjoin sep (pjoin sep loc "libraries") ap)).isSome
              = true := by
            have := hfails
            unfold taskFails at this
            rw [hs] at this
            exact this
          rcases Option.isSome_iff_exists.mp this with ⟨e, he⟩
          refine ⟨e.msg, ?_⟩
          unfold joinDownloads
          rw [ht]
          simp [download_library, hs, he]
      | false =>
        have hrest : ∃ i ∈ rest, taskFailsAt env sep loc tasks i = true := by
          rcases hfail with ⟨i, hi, hf⟩
          rcases List.mem_cons.mp hi with rfl | hmem
          · simp only [taskFailsAt, ht] at hf; rw [hf] at hfails; cases hfails
          · exact ⟨i, hmem, hf⟩
        cases hs : split_artifact t.1 with
        | none => exact absurd hfails.symm (by simp [taskFails, hs])
        | some ap =>
          have hd : env.downloadResult (pjoin sep (pjoin sep loc "libraries") ap)
              = none := by
            have := hfails
            unfold taskFails at this
            rw [hs] at this
            simpa using this
          rcases ih hrest with ⟨m, hm⟩
          refine ⟨m, ?_⟩
          unfold joinDownloads
          rw [ht]
          simp only [download_library, hs, hd]
          rw [hm]

theorem cleanStale_effects (env : Env) (sep loc : String) :
    ∀ e ∈ (cleanStale env sep loc).1, ∃ p, e = Effect.removeDir p := by
  intro e he
  by_cases h1 : env.pathExists (pjoin sep loc ".fabric") <;>
    by_cases h2 : env.removeDirOk (pjoin sep loc ".fabric") <;>
    by_cases h3 : env.pathExists (pjoin sep loc ".quilt") <;>
    simp [cleanStale, removeIfExists, h1, h2, h3] at he <;>
    first
      | exact ⟨_, he⟩
      | (rcases he with he | he <;> exact ⟨_, he⟩)

theorem cleanStale_of_removeOk (env : Env) (sep loc : String)
    (hremove : ∀ p, env.removeDirOk p = true) :
    cleanStale env sep loc =
      ((if env.pathExists (pjoin sep loc ".fabric")
        then [Effect.removeDir (pjoin sep loc ".fabric")] else [])
        ++ (if env.pathExists (pjoin sep loc ".quilt")
        then [Effect.removeDir (pjoin sep loc ".quilt")] else []),
      .ok ()) := by
  by_cases h1 : env.pathExists (pjoin sep loc ".fabric") <;>
    by_cases h3 : env.pathExists (pjoin sep loc ".quilt") <;>
    simp [cleanStale, removeIfExists, h1, h3, hremove]

theorem joinFiles_eq_map (sep loc : String) (tasks : List (String × String))
    (order : List Nat) :
    joinFiles sep loc tasks order
      = (joinRels sep tasks order).map (fun r => pjoin sep loc r) := by
  unfold joinFiles joinRels
  rw [List.map_filterMap]
  congr 1
  funext i
  cases tasks[i]? with
  | none => rfl
  | some t =>
    cases hs : split_artifact t.1 <;> simp [hs, pjoin_assoc]

theorem classPathEntry_pjoin (sep loc r : String) :
    classPathEntry sep loc (pjoin sep loc r) = replaceChar '\\' '/' r := by
  simp [classPathEntry, stripPathPrefix_pjoin]

theorem install_path_trace_prefix (env : Env) (sep : String) (lt : LoaderType)
    (loc : String) (srv : Bool)
    (hclean : (cleanStale env sep loc).2 = .ok ()) :
    ∃ rest, (install_path env sep lt loc srv).1
      = (cleanStale env sep loc).1 ++ Effect.fetchLaunchJson :: rest := by
  unfold install_path
  simp only [hclean]
  repeat' split
  all_goals exact ⟨_, by simp only [List.append_assoc, List.cons_append,
    List.nil_append, List.singleton_append]; rfl⟩

theorem install_path_writes_launch_jar (env : Env) (sep : String)
    (lt : LoaderType) (loc : String) (srv : Bool) (doc : Json)
    (mcs : String × String) (lmc : String) (libs : List Json)
    (tasks : List (String × String))
    (hclean : (cleanStale env sep loc).2 = .ok ())
    (hjson : env.launchJson = .ok doc)
    (hobj : doc.isObject = true)
    (hmc : resolveMainClasses lt doc = .ok mcs)
    (hlibs : (doc.idx "libraries").asArr = some libs)
    (hex : extractLibraries libs = .ok tasks)
    (hall : ∀ i ∈ env.joinOrder tasks.length,
      taskFailsAt env sep loc tasks i = false)
    (hloader : readLoaderMainClass env sep loc (detectFabricLoader tasks) mcs.2
      = .ok lmc)
    (hdir : (ensureTargetDir env loc).2 = .ok ())
    (hjarpre : (env.pathExists (pjoin sep loc (lt.get_name ++ "-server-launch.jar"))
      && !env.removeFileOk (pjoin sep loc (lt.get_name ++ "-server-launch.jar")))
      = false) :
    Effect.writeArchive (pjoin sep loc (lt.get_name ++ "-server-launch.jar"))
      (launchJarEntries lt mcs.1 lmc
        (trimEndWs (joinSpace
          ((joinRels sep tasks (env.joinOrder tasks.length)).map
            (fun r => replaceChar '\\' '/' r)))))
      ∈ (install_path env sep lt loc srv).1 := by
  have hjoin := joinDownloads_ok env sep loc tasks (env.joinOrder tasks.length) hall
  rw [joinFiles_eq_map] at hjoin
  have hjar := create_launch_jar_ok env sep loc lt mcs.1 lmc
    (joinRels sep tasks (env.joinOrder tasks.length)) hjarpre
  unfold install_path
  simp only [hclean, hjson, hobj, hmc, hlibs, hex, hjoin, hloader, hdir,
    Bool.not_true, if_false, hjar]
  repeat' split
  all_goals first
    | contradiction
    | simp

/-- C1: the claim says a Fabric install writes as `Main-Class` the value read
from the downloaded Fabric-loader jar, matched by the coordinate pattern.
The code passes the regex text to `str::matches`, which matches literally,
so the loader named by its real coordinate is never detected and the
`Main-Class` stays the hardcoded fallback; the jar manifest value
(`real.loader.Main` in this run) is never used. -/
theorem C1_loader_detection_never_fires :
    containsSub "net.fabricmc:fabric-loader:0.14.0" fabricLoaderPattern = false
    ∧ detectFabricLoader [("net.fabricmc:fabric-loader:0.14.0", "u/")] = none
    ∧ read_jar_main_class fabricLoaderEnv
        "T/libraries/net/fabricmc/fabric-loader/0.14.0/fabric-loader-0.14.0.jar"
      = .ok "real.loader.Main"
    ∧ Effect.writeArchive "T/fabric-server-launch.jar"
        [ArchiveEntry.directory "META-INF",
         ArchiveEntry.file "META-INF/MANIFEST.MF"
           ("Manifest-Version: 1.0\nMain-Class: net.fabricmc.loader.launch.server.FabricServerLauncher\nClass-Path: libraries/net/fabricmc/fabric-loader/0.14.0/fabric-loader-0.14.0.jar\n"),
         ArchiveEntry.file "fabric-server-launch.properties"
           "launch.mainClass=the.Game\n"]
        ∈ (install_path fabricLoaderEnv "/" LoaderType.Fabric "T" false).1
    ∧ "net.fabricmc.loader.launch.server.FabricServerLauncher"
        ≠ "real.loader.Main" := by
  refine ⟨by decide, by decide, by decide, by decide, by decide⟩

/-- C3: when at least one library download task fails, the install aborts
with the aggregated `Failed to download libraries: ` error and no launcher
archive write happens at all. -/
theorem C3_download_failure_aborts (env : Env) (sep : String) (lt : LoaderType)
    (loc : String) (srv : Bool) (doc : Json) (mcs : String × String)
    (libs : List Json) (tasks : List (String × String))
    (hclean : (cleanStale env sep loc).2 = .ok ())
    (hjson : env.launchJson = .ok doc)
    (hobj : doc.isObject = true)
    (hmc : resolveMainClasses lt doc = .ok mcs)
    (hlibs : (doc.idx "libraries").asArr = some libs)
    (hex : extractLibraries libs = .ok tasks)
    (hfail : ∃ i ∈ env.joinOrder tasks.length,
      taskFailsAt env sep loc tasks i = true) :
    (∃ m, (install_path env sep lt loc srv).2
      = .error ⟨"Failed to download libraries: " ++ m⟩)
    ∧ (∀ p entries,
        Effect.writeArchive p entries ∉ (install_path env sep lt loc srv).1)
    ∧ (∀ p, Effect.removeFile p ∉ (install_path env sep lt loc srv).1) := by
  rcases joinDownloads_err env sep loc tasks (env.joinOrder tasks.length) hfail
    with ⟨m, hm⟩
  have htrace : install_path env sep lt loc srv
      = ((cleanStale env sep loc).1 ++ Effect.fetchLaunchJson ::
          (joinDownloads env sep loc tasks (env.joinOrder tasks.length)).1,
        .error ⟨"Failed to download libraries: " ++ m⟩) := by
    unfold install_path
    simp only [hclean, hjson, hobj, hmc, hlibs, hex, hm, Bool.not_true,
      if_false]
    simp
  refine ⟨⟨m, by rw [htrace]⟩, ?_, ?_⟩
  · intro p entries hmem
    rw [htrace] at hmem
    simp only [List.mem_append, List.mem_cons] at hmem
    rcases hmem with hmem | hmem | hmem
    · rcases cleanStale_effects env sep loc _ hmem with ⟨q, hq⟩; cases hq
    · cases hmem
    · rcases joinDownloads_effects env sep loc tasks _ _ hmem with ⟨u, d, hud⟩
      cases hud
  · intro p hmem
    rw [htrace] at hmem
    simp only [List.mem_append, List.mem_cons] at hmem
    rcases hmem with hmem | hmem | hmem
    · rcases cleanStale_effects env sep loc _ hmem with ⟨q, hq⟩; cases hq
    · cases hmem
    · rcases joinDownloads_effects env sep loc tasks _ _ hmem with ⟨u, d, hud⟩
      cases hud

theorem C3_download_failure_aborts_witness :
    (∃ m, (install_path downloadFailEnv "/" LoaderType.Quilt "T" false).2
      = .error ⟨"Failed to download libraries: " ++ m⟩)
    ∧ (∀ p entries, Effect.writeArchive p entries
        ∉ (install_path downloadFailEnv "/" LoaderType.Quilt "T" false).1)
    ∧ (∀ p, Effect.removeFile p
        ∉ (install_path downloadFailEnv "/" LoaderType.Quilt "T" false).1) :=
  C3_download_failure_aborts downloadFailEnv "/" LoaderType.Quilt "T" false
    demoJson ("", "q.Main") _ [("a.b:c:1", "u/")]
    (by decide) rfl (by decide) rfl rfl rfl
    ⟨0, by decide, by decide⟩

/-- C4: the `Class-Path` of the synthesized archive lists exactly the
successfully downloaded library files, each rendered relative to the target
directory with backslashes replaced by forward slashes, joined by single
spaces, trailing whitespace trimmed. -/
theorem C4_class_path_exact (env : Env) (sep : String) (lt : LoaderType)
    (loc : String) (srv : Bool) (doc : Json) (mcs : String × String)
    (lmc : String) (libs : List Json) (tasks : List (String × String))
    (hclean : (cleanStale env sep loc).2 = .ok ())
    (hjson : env.launchJson = .ok doc)
    (hobj : doc.isObject = true)
    (hmc : resolveMainClasses lt doc = .ok mcs)
    (hlibs : (doc.idx "libraries").asArr = some libs)
    (hex : extractLibraries libs = .ok tasks)
    (hall : ∀ i ∈ env.joinOrder tasks.length,
      taskFailsAt env sep loc tasks i = false)
    (hloader : readLoaderMainClass env sep loc (detectFabricLoader tasks) mcs.2
      = .ok lmc)
    (hdir : (ensureTargetDir env loc).2 = .ok ())
    (hjarpre : (env.pathExists (pjoin sep loc (lt.get_name ++ "-server-launch.jar"))
      && !env.removeFileOk (pjoin sep loc (lt.get_name ++ "-server-launch.jar")))
      = false) :
    ∃ downloaded,
      (joinDownloads env sep loc tasks (env.joinOrder tasks.length)).2
        = .ok downloaded
      ∧ Effect.writeArchive (pjoin sep loc (lt.get_name ++ "-server-launch.jar"))
          (launchJarEntries lt mcs.1 lmc
            (trimEndWs (joinSpace
              (downloaded.map (fun f => classPathEntry sep loc f)))))
        ∈ (install_path env sep lt loc srv).1 := by
  have hjoin := joinDownloads_ok env sep loc tasks (env.joinOrder tasks.length) hall
  refine ⟨joinFiles sep loc tasks (env.joinOrder tasks.length), hjoin, ?_⟩
  have hmaps : (joinFiles sep loc tasks (env.joinOrder tasks.length)).map
      (fun f => classPathEntry sep loc f)
      = (joinRels sep tasks (env.joinOrder tasks.length)).map
        (fun r => replaceChar '\\' '/' r) := by
    rw [joinFiles_eq_map, List.map_map]
    simp only [Function.comp_def, classPathEntry_pjoin]
  rw [hmaps]
  exact install_path_writes_launch_jar env sep lt loc srv doc mcs lmc libs tasks
    hclean hjson hobj hmc hlibs hex hall hloader hdir hjarpre

theorem C4_class_path_exact_witness :
    ∃ downloaded,
      (joinDownloads demoEnv "/" "T" [("a.b:c:1", "u/")]
        (demoEnv.joinOrder 1)).2 = .ok downloaded
      ∧ Effect.writeArchive (pjoin "/" "T"
          (LoaderType.Fabric.get_name ++ "-server-launch.jar"))
          (launchJarEntries LoaderType.Fabric
            ("the.Game", "net.fabricmc.loader.launch.server.FabricServerLauncher").1
            "net.fabricmc.loader.launch.server.FabricServerLauncher"
            (trimEndWs (joinSpace
              (downloaded.map (fun f => classPathEntry "/" "T" f)))))
        ∈ (install_path demoEnv "/" LoaderType.Fabric "T" false).1 :=
  C4_class_path_exact demoEnv "/" LoaderType.Fabric "T" false demoJson
    ("the.Game", "net.fabricmc.loader.launch.server.FabricServerLauncher")
    "net.fabricmc.loader.launch.server.FabricServerLauncher"
    _ [("a.b:c:1", "u/")]
    (by decide) rfl (by decide) rfl rfl rfl
    (by decide) rfl (by decide) (by decide)

/-- C5 as stated is false on two counts: the Fabric properties entry content
carries a trailing newline (not exactly `launch.mainClass=` ++ mainClass),
and a Quilt install whose library name contains the literal detection text
gets its `Main-Class` overridden by the jar read instead of the verbatim
`launcherMainClass` (`q.Main` here). -/
theorem C5_entry_contents_counterexample :
    (Effect.writeArchive "T/fabric-server-launch.jar"
        [ArchiveEntry.directory "META-INF",
         ArchiveEntry.file "META-INF/MANIFEST.MF"
           "Manifest-Version: 1.0\nMain-Class: net.fabricmc.loader.launch.server.FabricServerLauncher\nClass-Path: libraries/a/b/c/1/c-1.jar\n",
         ArchiveEntry.file "fabric-server-launch.properties"
           "launch.mainClass=the.Game\n"]
      ∈ (install_path demoEnv "/" LoaderType.Fabric "T" false).1)
    ∧ "launch.mainClass=the.Game\n" ≠ "launch.mainClass=" ++ "the.Game"
    ∧ (Effect.writeArchive "T/quilt-server-launch.jar"
        [ArchiveEntry.directory "META-INF",
         ArchiveEntry.file "META-INF/MANIFEST.MF"
           "Manifest-Version: 1.0\nMain-Class: o.Override\nClass-Path: libraries/net//fabricmc/fabric-loader/.*/fabric-loader-.*.jar\n"]
      ∈ (install_path quiltAdversarialEnv "/" LoaderType.Quilt "T" false).1)
    ∧ (quiltAdversarialJson.idx "launcherMainClass").asStr = some "q.Main"
    ∧ "o.Override" ≠ "q.Main" := by
  refine ⟨by decide, by decide, by decide, by decide, by decide⟩

/-- C5 (amended): for every Quilt install in which no library name contains
the literal loader-detection text, the `Main-Class` of the synthesized jar equals
`launcherMainClass` verbatim and the entry list carries no
`fabric-server-launch.properties`; for every Fabric install the archive
additionally contains that properties entry, whose content is
`launch.mainClass=` followed by the original `mainClass` value followed by a
newline. -/
theorem C5_loader_specific_entries
    (envQ : Env) (sepQ locQ : String) (srvQ : Bool) (docQ : Json)
    (lmcQ : String) (libsQ : List Json) (tasksQ : List (String × String))
    (envF : Env) (sepF locF : String) (srvF : Bool) (docF : Json)
    (mcF lmcF : String) (libsF : List Json) (tasksF : List (String × String))
    (hcleanQ : (cleanStale envQ sepQ locQ).2 = .ok ())
    (hjsonQ : envQ.launchJson = .ok docQ)
    (hobjQ : docQ.isObject = true)
    (hqmc : (docQ.idx "launcherMainClass").asStr = some lmcQ)
    (hlibsQ : (docQ.idx "libraries").asArr = some libsQ)
    (hexQ : extractLibraries libsQ = .ok tasksQ)
    (hdetQ : detectFabricLoader tasksQ = none)
    (hallQ : ∀ i ∈ envQ.joinOrder tasksQ.length,
      taskFailsAt envQ sepQ locQ tasksQ i = false)
    (hdirQ : (ensureTargetDir envQ locQ).2 = .ok ())
    (hjarQ : (envQ.pathExists (pjoin sepQ locQ
        (LoaderType.Quilt.get_name ++ "-server-launch.jar"))
      && !envQ.removeFileOk (pjoin sepQ locQ
        (LoaderType.Quilt.get_name ++ "-server-launch.jar"))) = false)
    (hcleanF : (cleanStale envF sepF locF).2 = .ok ())
    (hjsonF : envF.launchJson = .ok docF)
    (hobjF : docF.isObject = true)
    (hfmc : (docF.idx "mainClass").asStr = some mcF)
    (hlibsF : (docF.idx "libraries").asArr = some libsF)
    (hexF : extractLibraries libsF = .ok tasksF)
    (hallF : ∀ i ∈ envF.joinOrder tasksF.length,
      taskFailsAt envF sepF locF tasksF i = false)
    (hloaderF : readLoaderMainClass envF sepF locF (detectFabricLoader tasksF)
      "net.fabricmc.loader.launch.server.FabricServerLauncher" = .ok lmcF)
    (hdirF : (ensureTargetDir envF locF).2 = .ok ())
    (hjarF : (envF.pathExists (pjoin sepF locF
        (LoaderType.Fabric.get_name ++ "-server-launch.jar"))
      && !envF.removeFileOk (pjoin sepF locF
        (LoaderType.Fabric.get_name ++ "-server-launch.jar"))) = false) :
    (Effect.writeArchive (pjoin sepQ locQ
        (LoaderType.Quilt.get_name ++ "-server-launch.jar"))
        [ArchiveEntry.directory "META-INF",
         ArchiveEntry.file "META-INF/MANIFEST.MF"
           ("Manifest-Version: 1.0\n" ++ "Main-Class: " ++ lmcQ ++ "\n" ++
            "Class-Path: " ++ trimEndWs (joinSpace
              ((joinRels sepQ tasksQ (envQ.joinOrder tasksQ.length)).map
                (fun r => replaceChar '\\' '/' r))) ++ "\n")]
      ∈ (install_path envQ sepQ LoaderType.Quilt locQ srvQ).1)
    ∧ (Effect.writeArchive (pjoin sepF locF
        (LoaderType.Fabric.get_name ++ "-server-launch.jar"))
        [ArchiveEntry.directory "META-INF",
         ArchiveEntry.file "META-INF/MANIFEST.MF"
           ("Manifest-Version: 1.0\n" ++ "Main-Class: " ++ lmcF ++ "\n" ++
            "Class-Path: " ++ trimEndWs (joinSpace
              ((joinRels sepF tasksF (envF.joinOrder tasksF.length)).map
                (fun r => replaceChar '\\' '/' r))) ++ "\n"),
         ArchiveEntry.file "fabric-server-launch.properties"
           ("launch.mainClass=" ++ mcF ++ "\n")]
      ∈ (install_path envF sepF LoaderType.Fabric locF srvF).1) := by
  constructor
  · have hmcQ : resolveMainClasses LoaderType.Quilt docQ = .ok ("", lmcQ) := by
      simp [resolveMainClasses, hqmc]
    have hloaderQ : readLoaderMainClass envQ sepQ locQ
        (detectFabricLoader tasksQ) ("", lmcQ).2 = .ok lmcQ := by
      rw [hdetQ]; rfl
    have := install_path_writes_launch_jar envQ sepQ LoaderType.Quilt locQ srvQ
      docQ ("", lmcQ) lmcQ libsQ tasksQ hcleanQ hjsonQ hobjQ hmcQ hlibsQ hexQ
      hallQ hloaderQ hdirQ hjarQ
    simpa [launchJarEntries] using this
  · have hmcF : resolveMainClasses LoaderType.Fabric docF
        = .ok (mcF, "net.fabricmc.loader.launch.server.FabricServerLauncher") := by
      simp [resolveMainClasses, hfmc]
    have := install_path_writes_launch_jar envF sepF LoaderType.Fabric locF srvF
      docF (mcF, "net.fabricmc.loader.launch.server.FabricServerLauncher") lmcF
      libsF tasksF hcleanF hjsonF hobjF hmcF hlibsF hexF hallF hloaderF hdirF
      hjarF
    simpa [launchJarEntries] using this

theorem C5_loader_specific_entries_witness :
    (Effect.writeArchive (pjoin "/" "T"
        (LoaderType.Quilt.get_name ++ "-server-launch.jar"))
        [ArchiveEntry.directory "META-INF",
         ArchiveEntry.file "META-INF/MANIFEST.MF"
           ("Manifest-Version: 1.0\n" ++ "Main-Class: " ++ "q.Main" ++ "\n" ++
            "Class-Path: " ++ trimEndWs (joinSpace
              ((joinRels "/" [("a.b:c:1", "u/")] (demoEnv.joinOrder 1)).map
                (fun r => replaceChar '\\' '/' r))) ++ "\n")]
      ∈ (install_path demoEnv "/" LoaderType.Quilt "T" false).1)
    ∧ (Effect.writeArchive (pjoin "/" "T"
        (LoaderType.Fabric.get_name ++ "-server-launch.jar"))
        [ArchiveEntry.directory "META-INF",
         ArchiveEntry.file "META-INF/MANIFEST.MF"
           ("Manifest-Version: 1.0\n" ++ "Main-Class: "
            ++ "net.fabricmc.loader.launch.server.FabricServerLauncher" ++ "\n" ++
            "Class-Path: " ++ trimEndWs (joinSpace
              ((joinRels "/" [("a.b:c:1", "u/")] (demoEnv.joinOrder 1)).map
                (fun r => replaceChar '\\' '/' r))) ++ "\n"),
         ArchiveEntry.file "fabric-server-launch.properties"
           ("launch.mainClass=" ++ "the.Game" ++ "\n")]
      ∈ (install_path demoEnv "/" LoaderType.Fabric "T" false).1) :=
  C5_loader_specific_entries demoEnv "/" "T" false demoJson "q.Main" _
    [("a.b:c:1", "u/")] demoEnv "/" "T" false demoJson "the.Game"
    "net.fabricmc.loader.launch.server.FabricServerLauncher" _
    [("a.b:c:1", "u/")]
    (by decide) rfl (by decide) rfl rfl rfl (by decide) (by decide) (by decide)
    (by decide)
    (by decide) rfl (by decide) rfl rfl rfl (by decide) rfl (by decide)
    (by decide)

/-- C6: when the launch archive already exists, the run entry point skips
the whole install (the trace is exactly one process spawn: no fetch, no
download, no write) and spawns
`<java> <args...> -jar <canonicalized archive> nogui` without waiting, the
binary defaulting to `java` when no override is given. -/
theorem C6_run_reuses_existing_archive (env : Env) (sep : String)
    (lt : LoaderType) (loc : String) (java : Option String)
    (args : List String) (abs : String)
    (hexists : env.pathExists
      (pjoin sep loc (lt.get_name ++ "-server-launch.jar")) = true)
    (hcanon : env.canonical
      (pjoin sep loc (lt.get_name ++ "-server-launch.jar")) = some abs) :
    install_and_run env sep lt loc java args
      = ([Effect.spawnProcess (match java with | some p => p | none => "java")
          (args ++ ["-jar", abs, "nogui"])], .ok ()) := by
  unfold install_and_run
  simp [hexists, hcanon]

theorem C6_run_reuses_existing_archive_witness :
    install_and_run archiveExistsEnv "/" LoaderType.Quilt "T" none ["-Xmx2G"]
      = ([Effect.spawnProcess
          (match (none : Option String) with | some p => p | none => "java")
          (["-Xmx2G"] ++ ["-jar", "/abs/T/quilt-server-launch.jar", "nogui"])],
        .ok ()) :=
  C6_run_reuses_existing_archive archiveExistsEnv "/" LoaderType.Quilt "T"
    none ["-Xmx2G"] "/abs/T/quilt-server-launch.jar" (by decide) rfl

/-- C7: a launch manifest document that is not a JSON object fails the
install right after the fetch with the manifest-shape error, before any
directory creation or download; a Quilt document without
`launcherMainClass` fails with the missing-main-class error before any
download starts. -/
theorem C7_manifest_shape_failures (envA : Env) (sepA locA : String)
    (ltA : LoaderType) (srvA : Bool) (docA : Json)
    (envB : Env) (sepB locB : String) (srvB : Bool) (docB : Json)
    (hcleanA : (cleanStale envA sepA locA).2 = .ok ())
    (hjsonA : envA.launchJson = .ok docA)
    (hnotobj : docA.isObject = false)
    (hcleanB : (cleanStale envB sepB locB).2 = .ok ())
    (hjsonB : envB.launchJson = .ok docB)
    (hobjB : docB.isObject = true)
    (hqnone : (docB.idx "launcherMainClass").asStr = none) :
    (install_path envA sepA ltA locA srvA
      = ((cleanStale envA sepA locA).1 ++ [Effect.fetchLaunchJson],
        .error ⟨"Cannot create server installation due to server endpoint returning wrong type."⟩)
      ∧ (∀ p, Effect.createDirAll p ∉ (install_path envA sepA ltA locA srvA).1)
      ∧ (∀ u d, Effect.download u d ∉ (install_path envA sepA ltA locA srvA).1))
    ∧ (install_path envB sepB LoaderType.Quilt locB srvB
      = ((cleanStale envB sepB locB).1 ++ [Effect.fetchLaunchJson],
        .error ⟨"Could not find main class entry"⟩)
      ∧ (∀ u d, Effect.download u d
          ∉ (install_path envB sepB LoaderType.Quilt locB srvB).1)) := by
  have htrA : install_path envA sepA ltA locA srvA
      = ((cleanStale envA sepA locA).1 ++ [Effect.fetchLaunchJson],
        .error ⟨"Cannot create server installation due to server endpoint returning wrong type."⟩) := by
    unfold install_path
    simp [hcleanA, hjsonA, hnotobj]
  have hmcB : resolveMainClasses LoaderType.Quilt docB
      = .error ⟨"Could not find main class entry"⟩ := by
    simp [resolveMainClasses, hqnone]
  have htrB : install_path envB sepB LoaderType.Quilt locB srvB
      = ((cleanStale envB sepB locB).1 ++ [Effect.fetchLaunchJson],
        .error ⟨"Could not find main class entry"⟩) := by
    unfold install_path
    simp [hcleanB, hjsonB, hobjB, hmcB]
  refine ⟨⟨htrA, ?_, ?_⟩, htrB, ?_⟩
  · intro p hmem
    rw [htrA] at hmem
    simp only [List.mem_append, List.mem_singleton] at hmem
    rcases hmem with hmem | hmem
    · rcases cleanStale_effects envA sepA locA _ hmem with ⟨q, hq⟩; cases hq
    · cases hmem
  · intro u d hmem
    rw [htrA] at hmem
    simp only [List.mem_append, List.mem_singleton] at hmem
    rcases hmem with hmem | hmem
    · rcases cleanStale_effects envA sepA locA _ hmem with ⟨q, hq⟩; cases hq
    · cases hmem
  · intro u d hmem
    rw [htrB] at hmem
    simp only [List.mem_append, List.mem_singleton] at hmem
    rcases hmem with hmem | hmem
    · rcases cleanStale_effects envB sepB locB _ hmem with ⟨q, hq⟩; cases hq
    · cases hmem

theorem C7_manifest_shape_failures_witness :
    (install_path arrayJsonEnv "/" LoaderType.Fabric "T" true
      = ((cleanStale arrayJsonEnv "/" "T").1 ++ [Effect.fetchLaunchJson],
        .error ⟨"Cannot create server installation due to server endpoint returning wrong type."⟩)
      ∧ (∀ p, Effect.createDirAll p
          ∉ (install_path arrayJsonEnv "/" LoaderType.Fabric "T" true).1)
      ∧ (∀ u d, Effect.download u d
          ∉ (install_path arrayJsonEnv "/" LoaderType.Fabric "T" true).1))
    ∧ (install_path noQuiltMainEnv "/" LoaderType.Quilt "T" true
      = ((cleanStale noQuiltMainEnv "/" "T").1 ++ [Effect.fetchLaunchJson],
        .error ⟨"Could not find main class entry"⟩)
      ∧ (∀ u d, Effect.download u d
          ∉ (install_path noQuiltMainEnv "/" LoaderType.Quilt "T" true).1)) :=
  C7_manifest_shape_failures arrayJsonEnv "/" "T" LoaderType.Fabric true
    (Json.arr [Json.str "x"]) noQuiltMainEnv "/" "T" true
    (Json.obj [("mainClass", Json.str "the.Game"),
      ("libraries", Json.arr
        [Json.obj [("name", Json.str "a.b:c:1"), ("url", Json.str "u/")]])])
    (by decide) rfl (by decide) (by decide) rfl (by decide) rfl

/-- C8: whichever loader is being installed, the two stale marker
directories `.fabric` and `.quilt` under the target are handled first —
each removed exactly when it exists, a missing one skipped without error —
before any other effect of the install. -/
theorem C8_stale_dirs_cleared_first (env : Env) (sep : String)
    (lt : LoaderType) (loc : String) (srv : Bool)
    (hremove : ∀ p, env.removeDirOk p = true) :
    (∃ rest, (install_path env sep lt loc srv).1
      = ((if env.pathExists (pjoin sep loc ".fabric")
          then [Effect.removeDir (pjoin sep loc ".fabric")] else [])
        ++ (if env.pathExists (pjoin sep loc ".quilt")
          then [Effect.removeDir (pjoin sep loc ".quilt")] else []))
        ++ Effect.fetchLaunchJson :: rest)
    ∧ (cleanStale env sep loc).2 = .ok () := by
  have hcs := cleanStale_of_removeOk env sep loc hremove
  have hclean2 : (cleanStale env sep loc).2 = .ok () := by rw [hcs]
  rcases install_path_trace_prefix env sep lt loc srv hclean2 with ⟨rest, hr⟩
  refine ⟨⟨rest, ?_⟩, hclean2⟩
  rw [hr, hcs]

theorem C8_stale_dirs_cleared_first_witness :
    (∃ rest, (install_path demoEnv "/" LoaderType.Fabric "T" false).1
      = ((if demoEnv.pathExists (pjoin "/" "T" ".fabric")
          then [Effect.removeDir (pjoin "/" "T" ".fabric")] else [])
        ++ (if demoEnv.pathExists (pjoin "/" "T" ".quilt")
          then [Effect.removeDir (pjoin "/" "T" ".quilt")] else []))
        ++ Effect.fetchLaunchJson :: rest)
    ∧ (cleanStale demoEnv "/" "T").2 = .ok () :=
  C8_stale_dirs_cleared_first demoEnv "/" LoaderType.Fabric "T" false
    (fun _ => rfl)

theorem install_path_server_download (env : Env) (sep : String)
    (lt : LoaderType) (loc : String)
    (hok : (install_path env sep lt loc true).2 = .ok ()) :
    ∃ url, env.serverJarUrl = .ok url
      ∧ Effect.download url (pjoin sep loc "server.jar")
        ∈ (install_path env sep lt loc true).1 := by
  unfold install_path at hok ⊢
  rcases hclean : (cleanStale env sep loc).2 with e | u
  · simp only [hclean] at hok
    exact absurd hok (by simp)
  · cases u
    simp only [hclean] at hok ⊢
    repeat' split at hok
    all_goals simp_all

/-- C10: when the archive is missing, the run entry point triggers the
install with server-jar installation unconditionally enabled (there is no
caller flag), so a successful install in this path always downloads the
base server artifact to `<target>/server.jar`. -/
theorem C10_run_installs_server_jar (env : Env) (sep : String)
    (lt : LoaderType) (loc : String) (java : Option String)
    (args : List String)
    (hnot : env.pathExists
      (pjoin sep loc (lt.get_name ++ "-server-launch.jar")) = false)
    (hok : (install_path env sep lt loc true).2 = .ok ()) :
    (∃ rest, (install_and_run env sep lt loc java args).1
      = (install_path env sep lt loc true).1 ++ rest)
    ∧ ∃ url, env.serverJarUrl = .ok url
      ∧ Effect.download url (pjoin sep loc "server.jar")
        ∈ (install_and_run env sep lt loc java args).1 := by
  have hpre : ∃ rest, (install_and_run env sep lt loc java args).1
      = (install_path env sep lt loc true).1 ++ rest := by
    unfold install_and_run
    simp only [hnot, Bool.not_false, if_true]
    rw [hok]
    cases hc : env.canonical (pjoin sep loc (lt.get_name ++ "-server-launch.jar")) with
    | none => exact ⟨[], by simp⟩
    | some abs => exact ⟨_, rfl⟩
  rcases install_path_server_download env sep lt loc hok with ⟨url, hurl, hmem⟩
  rcases hpre with ⟨rest, hr⟩
  exact ⟨⟨rest, hr⟩, url, hurl, by rw [hr]; exact List.mem_append_left _ hmem⟩

theorem C10_run_installs_server_jar_witness :
    (∃ rest, (install_and_run demoEnv "/" LoaderType.Quilt "T" none []).1
      = (install_path demoEnv "/" LoaderType.Quilt "T" true).1 ++ rest)
    ∧ ∃ url, demoEnv.serverJarUrl = .ok url
      ∧ Effect.download url (pjoin "/" "T" "server.jar")
        ∈ (install_and_run demoEnv "/" LoaderType.Quilt "T" none []).1 :=
  C10_run_installs_server_jar demoEnv "/" LoaderType.Quilt "T" none []
    (by decide) (by decide)

end Ornithe
